import Mathlib

/-!
Verification of the PATH External Auth Server (PEAS) core against its
natural-language specification.

The Go source is shallowly embedded: Go maps become association lists (the
list order models Go's map iteration order where that order is observable),
`http.Header` lookups are modelled through MIME header-key canonicalisation
exactly as `net/textproto` performs it, nil pointers become `Option`, and a
possible nil-pointer dereference is modelled as the `none` case of an
`Option`-valued result.
-/

namespace Peas

/-! ## Data model (store package)

`store.PortalApp` with fields `ID`, `AccountID`, `PlanType`, `Auth`
(nilable pointer) and `RateLimit` (nilable pointer), as used by
`auth/auth_handler.go`, `ratelimit/ratelimit_store.go` and the store tests.
-/

structure Auth where
  apiKey : String
deriving DecidableEq

structure RateLimit where
  monthlyUserLimit : Int
deriving DecidableEq

structure PortalApp where
  id : String
  accountID : String
  planType : String
  auth : Option Auth
  rateLimit : Option RateLimit
deriving DecidableEq

/-! ## String primitives

Go works on bytes; the embedding works on characters. For every string
operation used below (the ASCII prefixes `"Bearer "` and `"/v1/"`, the
separator `/`) byte-level and character-level semantics coincide. The
primitives are defined structurally on the character list so that they
evaluate by kernel reduction.
-/

def strTake (s : String) (n : Nat) : String := String.mk (s.toList.take n)

def strDrop (s : String) (n : Nat) : String := String.mk (s.toList.drop n)

def strLen (s : String) : Nat := s.toList.length

/-- Go `strings.HasPrefix`. -/
def strStartsWith (s p : String) : Bool := strTake s (strLen p) == p

/-- Go `strings.Split(·, "/")` on the character list: always returns at
least one (possibly empty) group. -/
def splitOnSlashChars : List Char → List (List Char)
  | [] => [[]]
  | c :: rest =>
    match splitOnSlashChars rest with
    | [] => [[]]
    | g :: gs => if c == Char.ofNat 47 then [] :: g :: gs else (c :: g) :: gs

/-- Go `strings.Split(s, "/")`. -/
def splitOnSlash (s : String) : List String := (splitOnSlashChars s.toList).map String.mk

/-! ## Go `net/textproto` header-key canonicalisation

`http.Header.Add` and `http.Header.Get` canonicalise the key with
`CanonicalMIMEHeaderKey`: if every byte is a valid token byte, the first
letter and every letter following a hyphen are upper-cased and all other
letters lower-cased; otherwise the key is returned unchanged.
-/

def validHeaderFieldChar (c : Char) : Bool :=
  let n := c.toNat
  (48 ≤ n && n ≤ 57) || (65 ≤ n && n ≤ 90) || (97 ≤ n && n ≤ 122) ||
  (n == 33) || (n == 35) || (n == 36) || (n == 37) || (n == 38) || (n == 39) ||
  (n == 42) || (n == 43) || (n == 45) || (n == 46) || (n == 94) || (n == 95) ||
  (n == 96) || (n == 124) || (n == 126)

def toUpperChar (c : Char) : Char :=
  if 97 ≤ c.toNat && c.toNat ≤ 122 then Char.ofNat (c.toNat - 32) else c

def toLowerChar (c : Char) : Char :=
  if 65 ≤ c.toNat && c.toNat ≤ 90 then Char.ofNat (c.toNat + 32) else c

def canonChars : Bool → List Char → List Char
  | _, [] => []
  | upper, c :: rest =>
    let c2 := if upper then toUpperChar c else toLowerChar c
    c2 :: canonChars (c2 == Char.ofNat 45) rest

def canonicalMIMEHeaderKey (s : String) : String :=
  if s.toList.all validHeaderFieldChar then String.mk (canonChars true s.toList) else s

/-- Request headers as delivered by Envoy (a map of raw key/value pairs);
the list order models the Go map iteration order used by
`convertMapToHeader` when populating the `http.Header`. -/
abbrev Headers := List (String × String)

/-- Model of `http.Header.Get` on the header object built by `convertMapToHeader`:
the first value whose canonicalised key matches the canonicalised lookup
key, or `""` when there is none. -/
def headerGet (headers : Headers) (key : String) : String :=
  match headers.find? (fun p => canonicalMIMEHeaderKey p.1 == canonicalMIMEHeaderKey key) with
  | some p => p.2
  | none => ""

/-! ## Portal-app-ID extractor (`auth/portal_app_id_extractor.go`) -/

def reqHeaderPortalAppID : String := "Portal-Application-ID"

def reqHeaderAccountID : String := "Portal-Account-ID"

/-- Go `extractPortalAppIDFromHeader`: case-insensitive header lookup. -/
def extractPortalAppIDFromHeader (headers : Headers) : String :=
  headerGet headers reqHeaderPortalAppID

/-- Go `extractPortalAppIDFromPath`: requires the literal path prefix `/v1/`,
splits the remainder on `/` and returns the FIRST segment when it is
non-empty (`segments[0] != ""` in the Go source). -/
def extractPortalAppIDFromPath (path : String) : String :=
  if strStartsWith path "/v1/" then
    match splitOnSlash (strDrop path 4) with
    | [] => ""
    | seg :: _ => if seg ≠ "" then seg else ""
  else ""

/-- Go `extractPortalAppID`: header first, then path, else error. -/
def extractPortalAppID (headers : Headers) (path : String) : Except String String :=
  let fromHeader := extractPortalAppIDFromHeader headers
  if fromHeader ≠ "" then .ok fromHeader
  else
    let fromPath := extractPortalAppIDFromPath path
    if fromPath ≠ "" then .ok fromPath
    else .error "portal app ID not provided in header or path"

/-! ## API-key authorizer (`AuthorizerAPIKey.authorizeRequest`) -/

def errUnauthorized : String := "unauthorized"

/-- The Go source strips `"Bearer "` only when
`len(headerValue) > len(apiKeyPrefix)` (strictly greater than 7) and the
first seven bytes equal the prefix. -/
def stripAPIKeyBearer (headerValue : String) : String :=
  if 7 < strLen headerValue && strTake headerValue 7 == "Bearer " then strDrop headerValue 7
  else headerValue

/-- Go `AuthorizerAPIKey.authorizeRequest`. The Go method dereferences
`portalApp.Auth.APIKey` without a nil check, so a `PortalApp` with nil
`Auth` would panic: that case is the outer `none`. Otherwise
`some (some errUnauthorized)` is a denial and `some none` is success. -/
def authorizeRequest (headers : Headers) (portalApp : PortalApp) : Option (Option String) :=
  match portalApp.auth with
  | none => none
  | some auth =>
    let headerValue := headerGet headers "Authorization"
    if headerValue = "" then some (some errUnauthorized)
    else if stripAPIKeyBearer headerValue ≠ auth.apiKey then some (some errUnauthorized)
    else some none

/-- Go `authHandler.checkPortalAppAuthorized`: skip authorization entirely
(nil result in Go, here `some none`) when `Auth` is nil or the stored key
is empty; otherwise delegate to the API-key authorizer. -/
def checkPortalAppAuthorized (headers : Headers) (portalApp : PortalApp) : Option (Option String) :=
  match portalApp.auth with
  | none => some none
  | some auth =>
    if auth.apiKey = "" then some none
    else authorizeRequest headers portalApp

/-! ## Check responses (`auth/auth_handler.go`)

gRPC status codes: `codes.OK = 0`, `codes.PermissionDenied = 7`.
The Envoy HTTP status enum values equal the HTTP status numbers, and
`fmt.Sprintf` with `%d` prints that number into the body template
`errBody`.
-/

structure DeniedHttpResponse where
  httpCode : Nat
  body : String
deriving DecidableEq

inductive HttpResponseKind where
  | denied (resp : DeniedHttpResponse)
  | okResp (headers : List (String × String))
deriving DecidableEq

structure CheckResponse where
  statusCode : Int
  statusMessage : String
  httpResponse : HttpResponseKind
deriving DecidableEq

def grpcOK : Int := 0

def grpcPermissionDenied : Int := 7

/-- The body template `errBody` of the Go source:
`fmt.Sprintf` of the HTTP code and the message. -/
def errBodyFormat (httpCode : Nat) (msg : String) : String :=
  "\x7b\"code\": " ++ toString httpCode ++ ", \"message\": \"" ++ msg ++ "\"\x7d"

/-- Go `getDeniedCheckResponse`. -/
def getDeniedCheckResponse (err : String) (httpCode : Nat) : CheckResponse :=
  { statusCode := grpcPermissionDenied
    statusMessage := err
    httpResponse := .denied { httpCode := httpCode, body := errBodyFormat httpCode err } }

/-- Go `getOKCheckResponse`. -/
def getOKCheckResponse (headers : List (String × String)) : CheckResponse :=
  { statusCode := grpcOK
    statusMessage := "ok"
    httpResponse := .okResp headers }

/-- Go `authHandler.getHTTPHeaders`: exactly the two upstream headers. -/
def getHTTPHeaders (portalApp : PortalApp) : List (String × String) :=
  [(reqHeaderPortalAppID, portalApp.id), (reqHeaderAccountID, portalApp.accountID)]

def accountRateLimitMessage : String :=
  "This account is rate limited. To upgrade your plan or modify your account settings, log in to your account at https://portal.grove.city/"

/-- Go `authHandler.checkAccountRateLimited`: nil when the portal app has no
rate limit configured or the account is not in the rate-limited set. -/
def checkAccountRateLimited (isAccountRateLimited : String → Bool) (portalApp : PortalApp) :
    Option String :=
  match portalApp.rateLimit with
  | none => none
  | some _ =>
    if isAccountRateLimited portalApp.accountID then some "account is rate limited" else none

/-- The HTTP sub-message of an Envoy `CheckRequest`. -/
structure HTTPRequest where
  path : String
  headers : Headers
deriving DecidableEq

/-- Go `authHandler.Check`. The argument `req` is `none` when the probe has
no HTTP sub-message. The result is `none` only if a nil-pointer panic
occurred (it never does, see the theorems); otherwise it carries the
`CheckResponse` together with the returned Go error, which is nil
(`none`) on every return path of the source. -/
def check (getPortalApp : String → Option PortalApp) (isAccountRateLimited : String → Bool)
    (req : Option HTTPRequest) : Option (CheckResponse × Option String) :=
  match req with
  | none => some (getDeniedCheckResponse "HTTP request not found" 400, none)
  | some r =>
    if r.path = "" then some (getDeniedCheckResponse "path not provided" 400, none)
    else
      match extractPortalAppID r.headers r.path with
      | .error msg => some (getDeniedCheckResponse msg 400, none)
      | .ok portalAppID =>
        match getPortalApp portalAppID with
        | none => some (getDeniedCheckResponse "portal app not found" 404, none)
        | some portalApp =>
          match checkPortalAppAuthorized r.headers portalApp with
          | none => none
          | some (some errMsg) => some (getDeniedCheckResponse errMsg 401, none)
          | some none =>
            match checkAccountRateLimited isAccountRateLimited portalApp with
            | some _ => some (getDeniedCheckResponse accountRateLimitMessage 429, none)
            | none => some (getOKCheckResponse (getHTTPHeaders portalApp), none)

/-! ## Portal-App Store (`store/portal_app_store.go`) -/

/-- Lookup in the account-rate-limit map (`GetAccountRateLimit`'s map
read). The association list stands for the Go map. -/
def lookupRL (m : List (String × RateLimit)) (acct : String) : Option RateLimit :=
  (m.find? (fun p => p.1 == acct)).map (fun p => p.2)

/-- The loop body of `setAccountRateLimits`: skip an app with a nil rate
limit, otherwise insert only if the account is not already present. -/
def stepAccountRateLimit (m : List (String × RateLimit)) (app : PortalApp) :
    List (String × RateLimit) :=
  match app.rateLimit with
  | none => m
  | some rl =>
    if (lookupRL m app.accountID).isSome then m else m ++ [(app.accountID, rl)]

/-- Go `portalAppStore.setAccountRateLimits`: iterate the snapshot's portal
apps (in the given iteration order), and for each app with a non-nil
rate limit insert into the EXISTING account-rate-limit map only if the
account is not already present. The map is mutated in place; it is never
cleared first. -/
def setAccountRateLimits (accountRateLimits : List (String × RateLimit))
    (portalApps : List PortalApp) : List (String × RateLimit) :=
  portalApps.foldl stepAccountRateLimit accountRateLimits

/-- In-memory state of the portal-app store: the portal-app snapshot, the
account-rate-limit rollup, and the `data_source_refresh_errors_total`
counter labelled `portal_app_store`/`postgres_error`. -/
structure PortalAppStoreState where
  portalApps : List (String × PortalApp)
  accountRateLimits : List (String × RateLimit)
  refreshErrorCount : Nat
deriving DecidableEq

/-- Go `portalAppStore.setStoreData`: the outbound `GetPortalApps()` result
is passed in explicitly. On success the snapshot is replaced and the
rollup updated; on failure nothing changes and an error is returned. -/
def setStoreData (fetchResult : Except String (List (String × PortalApp)))
    (s : PortalAppStoreState) : PortalAppStoreState × Except String Unit :=
  match fetchResult with
  | .error e => (s, .error ("failed to get portal apps from data source: " ++ e))
  | .ok portalApps =>
    ({ s with
        portalApps := portalApps
        accountRateLimits := setAccountRateLimits s.accountRateLimits (portalApps.map (fun p => p.2)) },
      .ok ())

/-- Go `portalAppStore.refreshStore`: on `setStoreData` failure it records
`RecordDataSourceRefreshError("portal_app_store", "postgres_error")`
(modelled as the counter increment) and returns the wrapped error, which
the background loop only logs. -/
def refreshStore (fetchResult : Except String (List (String × PortalApp)))
    (s : PortalAppStoreState) : PortalAppStoreState × Except String Unit :=
  match setStoreData fetchResult s with
  | (s2, .error e) =>
    ({ s2 with refreshErrorCount := s2.refreshErrorCount + 1 },
      .error ("failed to refresh store data: " ++ e))
  | (s2, .ok _) => (s2, .ok ())

/-- Go `portalAppStore.GetPortalApp`. -/
def storeGetPortalApp (s : PortalAppStoreState) (portalAppID : String) : Option PortalApp :=
  (s.portalApps.find? (fun p => p.1 == portalAppID)).map (fun p => p.2)

/-- Go `portalAppStore.GetAccountRateLimit`. -/
def storeGetAccountRateLimit (s : PortalAppStoreState) (accountID : String) : Option RateLimit :=
  lookupRL s.accountRateLimits accountID

/-! ## Rate-Limit Store (`ratelimit/ratelimit_store.go`) -/

def freeMonthlyRelays : Int := 1000000

/-- Go `rateLimitStore.getRateLimit`: effective limit from plan type and
rate-limit configuration; 0 means "no limit". -/
def getRateLimit (portalApp : PortalApp) : Int :=
  match portalApp.rateLimit with
  | none => 0
  | some rl =>
    if portalApp.planType = "PLAN_FREE" then freeMonthlyRelays
    else if portalApp.planType = "PLAN_UNLIMITED" then
      if rl.monthlyUserLimit > 0 then rl.monthlyUserLimit else 0
    else 0

/-- Go `rateLimitStore.shouldLimitAccount`: strict greater-than. -/
def shouldLimitAccount (rateLimit : Int) (usage : Int) : Bool :=
  if rateLimit = 0 then false else usage > rateLimit

/-- The loop body of `updateRateLimitedAccounts` that builds the new
rate-limited accounts map from the warehouse usage rows (in iteration
order); accounts without a portal app in the store are skipped. -/
def buildRateLimitedAccounts (getAccountPortalApp : String → Option PortalApp)
    (usage : List (String × Int)) : List String :=
  usage.foldl
    (fun acc p =>
      match getAccountPortalApp p.1 with
      | none => acc
      | some app =>
        if shouldLimitAccount (getRateLimit app) p.2 then acc ++ [p.1] else acc)
    []

/-- In-memory state of the rate-limit store: the published rate-limited
set and the `data_source_refresh_errors_total` counter labelled
`rate_limit_store`/`bigquery_error`. -/
structure RateLimitStoreState where
  rateLimitedAccounts : List String
  refreshErrorCount : Nat
deriving DecidableEq

/-- Go `rateLimitStore.updateRateLimitedAccounts`, with the outbound
warehouse call's result passed in explicitly. On error the published set
is untouched and the error counter is incremented; on success the new
set replaces the old atomically. -/
def updateRateLimitedAccounts (getAccountPortalApp : String → Option PortalApp)
    (fetchResult : Except String (List (String × Int)))
    (s : RateLimitStoreState) : RateLimitStoreState × Except String Unit :=
  match fetchResult with
  | .error e =>
    ({ s with refreshErrorCount := s.refreshErrorCount + 1 },
      .error ("failed to get monthly usage data: " ++ e))
  | .ok usage =>
    ({ s with rateLimitedAccounts := buildRateLimitedAccounts getAccountPortalApp usage },
      .ok ())

/-- Go `rateLimitStore.IsAccountRateLimited`. -/
def storeIsAccountRateLimited (s : RateLimitStoreState) (accountID : String) : Bool :=
  s.rateLimitedAccounts.contains accountID

/-! ## Account-usage gauge (`metrics/auth_metrics.go`) -/

/-- Label set of one `account_usage_total` series:
`(account_id, plan_type, rate_limit)`. -/
abbrev GaugeLabels := String × String × String

/-- Prometheus `GaugeVec.With(...).Set(v)`: update the series if it exists, else
create it. The library never removes a series unless `Reset`/`Delete` is
called, and the source never calls either on `accountUsageTotal`. -/
def gaugeSet (g : List (GaugeLabels × Int)) (labels : GaugeLabels) (v : Int) :
    List (GaugeLabels × Int) :=
  if (g.find? (fun p => p.1 == labels)).isSome then
    g.map (fun p => if p.1 == labels then (p.1, v) else p)
  else g ++ [(labels, v)]

/-- Go `metrics.UpdateAccountUsage`. -/
def updateAccountUsage (g : List (GaugeLabels × Int)) (accountID planType : String)
    (monthlyUsage : Int) (rateLimit : Int) : List (GaugeLabels × Int) :=
  gaugeSet g (accountID, planType, toString rateLimit) monthlyUsage

/-- The effect one run of `updateRateLimitedAccounts` has on the
`account_usage_total` gauge: `UpdateAccountUsage` is called for every
usage row whose account has a portal app in the store; nothing is reset
or deleted before, during or after the loop. -/
def refreshAccountUsageGauge (getAccountPortalApp : String → Option PortalApp)
    (usage : List (String × Int)) (g : List (GaugeLabels × Int)) : List (GaugeLabels × Int) :=
  usage.foldl
    (fun acc p =>
      match getAccountPortalApp p.1 with
      | none => acc
      | some app => updateAccountUsage acc p.1 app.planType p.2 (getRateLimit app))
    g

/-! ## Spec-side definitions

Definitions in this section follow the wording of the specification (or of
a claim derived from it) rather than the Go source; each is compared with
the corresponding source-derived definition by a theorem.
-/

/-- Spec §4.5 steps 1-7 as the claim states them: the fixed check order
with the first failure winning, each denial carrying gRPC
`PERMISSION_DENIED`, the stated HTTP code and message, and a body of
exactly the form from §6.1. The API-key verdict and the extractor's
verdict are the handler's own (the claim describes the dispatch, not the
sub-checks). -/
def deniedResponseSpec (httpCode : Nat) (msg : String) : CheckResponse :=
  { statusCode := 7
    statusMessage := msg
    httpResponse := .denied
      { httpCode := httpCode
        body := "\x7b\"code\": " ++ toString httpCode ++ ", \"message\": \"" ++ msg ++ "\"\x7d" } }

/-- The handler's API-key stage fails (spec §4.5 step 5). -/
def apiKeyCheckFails (headers : Headers) (portalApp : PortalApp) : Bool :=
  match checkPortalAppAuthorized headers portalApp with
  | some (some _) => true
  | _ => false

/-- The claim's description of `Check` (C2): deterministic order, first
failure wins, exact codes, messages and body shapes, two headers on OK. -/
def checkSpec (getPortalApp : String → Option PortalApp) (isAccountRateLimited : String → Bool)
    (req : Option HTTPRequest) : CheckResponse :=
  match req with
  | none => deniedResponseSpec 400 "HTTP request not found"
  | some r =>
    if r.path = "" then deniedResponseSpec 400 "path not provided"
    else
      match extractPortalAppID r.headers r.path with
      | .error msg => deniedResponseSpec 400 msg
      | .ok portalAppID =>
        match getPortalApp portalAppID with
        | none => deniedResponseSpec 404 "portal app not found"
        | some portalApp =>
          if apiKeyCheckFails r.headers portalApp then deniedResponseSpec 401 "unauthorized"
          else if portalApp.rateLimit.isSome && isAccountRateLimited portalApp.accountID then
            deniedResponseSpec 429 accountRateLimitMessage
          else
            { statusCode := 0
              statusMessage := "ok"
              httpResponse := .okResp
                [("Portal-Application-ID", portalApp.id), ("Portal-Account-ID", portalApp.accountID)] }

/-- Claim C3's version of the API-key acceptance condition: ANY value
starting with the seven-character prefix `"Bearer "` has that prefix
stripped before the comparison. -/
def authorizeRequestClaimSpec (headers : Headers) (apiKey : String) : Bool :=
  let v := headerGet headers "Authorization"
  if v = "" then false
  else (if strTake v 7 == "Bearer " then strDrop v 7 else v) == apiKey

/-- Amended C3 acceptance condition: the prefix is stripped only when the
value is STRICTLY LONGER than seven characters and starts with
`"Bearer "`; the seven-character value `"Bearer "` itself is compared
as-is. -/
def authorizeRequestAmendedSpec (headers : Headers) (apiKey : String) : Bool :=
  let v := headerGet headers "Authorization"
  if v = "" then false
  else (if 7 < strLen v && strTake v 7 == "Bearer " then strDrop v 7 else v) == apiKey

/-- Claim C4's version of the extractor: after stripping `/v1/` and
splitting on `/`, the first NON-EMPTY segment is returned. -/
def extractPortalAppIDClaimSpec (headers : Headers) (path : String) : Except String String :=
  let fromHeader := headerGet headers "Portal-Application-ID"
  if fromHeader ≠ "" then .ok fromHeader
  else if strStartsWith path "/v1/" then
    match (splitOnSlash (strDrop path 4)).filter (fun seg => seg ≠ "") with
    | [] => .error "portal app ID not provided in header or path"
    | seg :: _ => .ok seg
  else .error "portal app ID not provided in header or path"

/-- Amended C4 extractor: the FIRST segment of the split is returned when
it is non-empty; otherwise extraction fails. -/
def extractPortalAppIDAmendedSpec (headers : Headers) (path : String) : Except String String :=
  let fromHeader := headerGet headers "Portal-Application-ID"
  if fromHeader ≠ "" then .ok fromHeader
  else if strStartsWith path "/v1/" && (splitOnSlash (strDrop path 4)).headD "" ≠ "" then
    .ok ((splitOnSlash (strDrop path 4)).headD "")
  else .error "portal app ID not provided in header or path"

/-- First-match semantics of the amended C1 rollup: the rate limit of the
first portal app in iteration order with the given account and a non-nil
rate limit. -/
def firstAppRateLimit (portalApps : List PortalApp) (acct : String) : Option RateLimit :=
  match portalApps with
  | [] => none
  | app :: rest =>
    if app.accountID == acct && app.rateLimit.isSome then app.rateLimit
    else firstAppRateLimit rest acct

/-- Left-biased choice on options (spelled out to keep statements
first-order). -/
def optOr (a b : Option RateLimit) : Option RateLimit :=
  match a with
  | some x => some x
  | none => b

/-! ## Concrete instances used by witnesses and counterexamples -/

/-- A key-gated portal app whose stored secret is the literal string
`"Bearer "` (C3 counterexample). -/
def appBearerSecret : PortalApp :=
  { id := "app_b", accountID := "acct_b", planType := "PLAN_UNLIMITED"
    auth := some { apiKey := "Bearer " }, rateLimit := none }

/-- A key-gated portal app with secret `"topsecret"`. -/
def appTopSecret : PortalApp :=
  { id := "app_t", accountID := "acct_t", planType := "PLAN_UNLIMITED"
    auth := some { apiKey := "topsecret" }, rateLimit := none }

/-- A public free-plan portal app with a configured rate limit. -/
def appFreePlan : PortalApp :=
  { id := "app_f", accountID := "acct_f", planType := "PLAN_FREE"
    auth := none, rateLimit := some { monthlyUserLimit := 0 } }

/-- A public portal app with no auth and no rate limit. -/
def appPublic : PortalApp :=
  { id := "app_p", accountID := "acct_p", planType := "PLAN_UNLIMITED"
    auth := none, rateLimit := none }

/-- A one-app portal-app store lookup function for `appTopSecret`. -/
def getAppTopSecret : String → Option PortalApp :=
  fun s => if s = "app_t" then some appTopSecret else none

/-- A one-app portal-app store lookup function for `appPublic`. -/
def getAppPublic : String → Option PortalApp :=
  fun s => if s = "app_p" then some appPublic else none

/-- Account-to-portal-app lookup mapping `acct_old` to the free-plan app
(C9 failing input). -/
def getAccountAppC9 : String → Option PortalApp :=
  fun s => if s = "acct_old" then some appFreePlan else none

/-- Portal-app-store state holding a rollup entry for `acct1`
(C1 counterexample: the account is absent from the next snapshot). -/
def storeStateAcct1 : PortalAppStoreState :=
  { portalApps := []
    accountRateLimits := [("acct1", { monthlyUserLimit := 5 })]
    refreshErrorCount := 0 }

/-! ## Helper lemmas -/

theorem checkPortalAppAuthorized_ne_none (headers : Headers) (app : PortalApp) :
    checkPortalAppAuthorized headers app ≠ none := by
  rcases app with ⟨i, a, p, auth, rl⟩
  cases auth with
  | none => simp [checkPortalAppAuthorized]
  | some au =>
    simp only [checkPortalAppAuthorized, authorizeRequest]
    split
    · simp
    · split
      · simp
      · split
        · simp
        · simp

theorem checkPortalAppAuthorized_error_msg (headers : Headers) (app : PortalApp) (m : String) :
    checkPortalAppAuthorized headers app = some (some m) → m = errUnauthorized := by
  rcases app with ⟨i, a, p, auth, rl⟩
  cases auth with
  | none => simp [checkPortalAppAuthorized]
  | some au =>
    simp only [checkPortalAppAuthorized, authorizeRequest]
    split
    · simp
    · split
      · intro h
        exact (by simpa using h : errUnauthorized = m).symm
      · split
        · intro h
          exact (by simpa using h : errUnauthorized = m).symm
        · simp

theorem optOr_none_right (a : Option RateLimit) : optOr a none = a := by
  cases a <;> rfl

theorem lookupRL_append_single (m : List (String × RateLimit)) (x : String) (rl : RateLimit)
    (acct : String) :
    lookupRL (m ++ [(x, rl)]) acct
      = optOr (lookupRL m acct) (if x == acct then some rl else none) := by
  induction m with
  | nil =>
    simp only [List.nil_append, lookupRL, List.find?]
    split <;> simp_all [optOr]
  | cons p m ih =>
    simp only [List.cons_append, lookupRL, List.find?] at *
    cases hp : (p.1 == acct) with
    | true => simp [hp, optOr]
    | false => simpa [hp] using ih

theorem setAccountRateLimits_lookup (apps : List PortalApp)
    (old : List (String × RateLimit)) (acct : String) :
    lookupRL (setAccountRateLimits old apps) acct
      = optOr (lookupRL old acct) (firstAppRateLimit apps acct) := by
  induction apps generalizing old with
  | nil => simp [setAccountRateLimits, firstAppRateLimit, optOr_none_right]
  | cons app rest ih =>
    have hstep : setAccountRateLimits old (app :: rest)
        = setAccountRateLimits (stepAccountRateLimit old app) rest := rfl
    rw [hstep, ih (stepAccountRateLimit old app)]
    cases hrl : app.rateLimit with
    | none =>
      have hid : stepAccountRateLimit old app = old := by simp [stepAccountRateLimit, hrl]
      rw [hid]
      simp [firstAppRateLimit, hrl]
    | some rl =>
      cases hin : (lookupRL old app.accountID).isSome with
      | true =>
        have hid : stepAccountRateLimit old app = old := by
          simp [stepAccountRateLimit, hrl, hin]
        rw [hid]
        cases hacct : (app.accountID == acct) with
        | true =>
          have heq : app.accountID = acct := by simpa using hacct
          rcases Option.isSome_iff_exists.mp hin with ⟨v, hv⟩
          rw [heq] at hv
          simp [firstAppRateLimit, hacct, hrl, hv, optOr]
        | false => simp [firstAppRateLimit, hacct]
      | false =>
        have hid : stepAccountRateLimit old app = old ++ [(app.accountID, rl)] := by
          simp [stepAccountRateLimit, hrl, hin]
        rw [hid, lookupRL_append_single]
        cases hacct : (app.accountID == acct) with
        | true =>
          have heq : app.accountID = acct := by simpa using hacct
          have hnone : lookupRL old acct = none := by
            rw [← heq]
            exact Option.not_isSome_iff_eq_none.mp (by simp [hin])
          simp [firstAppRateLimit, hacct, hrl, hnone, optOr]
        | false =>
          rw [if_neg (by simp [hacct]), optOr_none_right]
          simp [firstAppRateLimit, hacct]

/-! ## Claim theorems -/

/-- C10: `checkPortalAppAuthorized` never hits the authorizer's unguarded
nil dereference (the result is never the panic marker `none`); a portal
app with nil `Auth` or an empty stored key is treated as authorized at
this stage without invoking the authorizer, and the authorizer is invoked
exactly when `Auth` is non-nil with a non-empty `APIKey`, in which case
its nil dereference cannot fire either. -/
theorem apiKeyAuthorizerGuarded (headers : Headers) (app : PortalApp) :
    checkPortalAppAuthorized headers app ≠ none ∧
    ((app.auth = none ∨ ∃ a, app.auth = some a ∧ a.apiKey = "") →
      checkPortalAppAuthorized headers app = some none) ∧
    (∀ a, app.auth = some a → a.apiKey ≠ "" →
      checkPortalAppAuthorized headers app = authorizeRequest headers app ∧
      authorizeRequest headers app ≠ none) := by
  refine ⟨checkPortalAppAuthorized_ne_none headers app, ?_, ?_⟩
  · rintro (hnone | ⟨a, ha, hkey⟩)
    · simp [checkPortalAppAuthorized, hnone]
    · simp [checkPortalAppAuthorized, ha, hkey]
  · intro a ha hkey
    constructor
    · simp [checkPortalAppAuthorized, ha, hkey]
    · simp only [authorizeRequest, ha]
      split
      · simp
      · split <;> simp

/-- C10 witness: a portal app with nil `Auth` skips API-key authorization
and is authorized at this stage. -/
theorem apiKeyAuthorizerGuarded_witness :
    checkPortalAppAuthorized [] appPublic = some none :=
  (apiKeyAuthorizerGuarded [] appPublic).2.1 (Or.inl rfl)

/-- C6: the refresh-time limit decision. A `PLAN_FREE` app with a non-nil
rate limit is limited iff usage exceeds `freeMonthlyRelays` (1,000,000)
strictly; a `PLAN_UNLIMITED` app with `MonthlyUserLimit > 0` is limited
iff usage strictly exceeds that override; `PLAN_UNLIMITED` without a
positive override, a nil rate limit, and any other plan type are never
limited. Exactly-at-limit usage is allowed in every case. -/
theorem shouldLimitMatchesPlanPolicy (app : PortalApp) (usage : Int) :
    (app.planType = "PLAN_FREE" → app.rateLimit.isSome →
      (shouldLimitAccount (getRateLimit app) usage = true ↔ usage > freeMonthlyRelays)) ∧
    (∀ rl, app.planType = "PLAN_UNLIMITED" → app.rateLimit = some rl →
      0 < rl.monthlyUserLimit →
      (shouldLimitAccount (getRateLimit app) usage = true ↔ usage > rl.monthlyUserLimit)) ∧
    (∀ rl, app.planType = "PLAN_UNLIMITED" → app.rateLimit = some rl →
      rl.monthlyUserLimit ≤ 0 → shouldLimitAccount (getRateLimit app) usage = false) ∧
    (app.rateLimit = none → shouldLimitAccount (getRateLimit app) usage = false) ∧
    (app.planType ≠ "PLAN_FREE" → app.planType ≠ "PLAN_UNLIMITED" →
      shouldLimitAccount (getRateLimit app) usage = false) := by
  refine ⟨?_, ?_, ?_, ?_, ?_⟩
  · intro hplan hsome
    rcases Option.isSome_iff_exists.mp hsome with ⟨rl, hrl⟩
    simp only [getRateLimit, hrl, hplan, if_pos, shouldLimitAccount, freeMonthlyRelays]
    norm_num
  · intro rl hplan hrl hpos
    have hne : rl.monthlyUserLimit ≠ 0 := by omega
    simp [getRateLimit, hrl, hplan, shouldLimitAccount, hpos, hne]
  · intro rl hplan hrl hnonpos
    have hnotpos : ¬ rl.monthlyUserLimit > 0 := by omega
    simp [getRateLimit, hrl, hplan, shouldLimitAccount, hnotpos]
  · intro hnone
    simp [getRateLimit, hnone, shouldLimitAccount]
  · intro hfree hunlim
    cases hrl : app.rateLimit with
    | none => simp [getRateLimit, hrl, shouldLimitAccount]
    | some rl => simp [getRateLimit, hrl, hfree, hunlim, shouldLimitAccount]

/-- C6 witness: the free-plan app is limited at 1,000,001 relays and not
limited at exactly 1,000,000 relays. -/
theorem shouldLimitMatchesPlanPolicy_witness :
    shouldLimitAccount (getRateLimit appFreePlan) 1000001 = true ∧
    shouldLimitAccount (getRateLimit appFreePlan) 1000000 = false := by
  constructor
  · exact ((shouldLimitMatchesPlanPolicy appFreePlan 1000001).1 rfl rfl).mpr
      (by norm_num [freeMonthlyRelays])
  · have h := (shouldLimitMatchesPlanPolicy appFreePlan 1000000).1 rfl rfl
    exact Bool.eq_false_iff.mpr (fun hh => absurd (h.mp hh) (by norm_num [freeMonthlyRelays]))

/-- C7: a failing outbound call leaves the published view untouched. The
rate-limit store keeps its rate-limited set, the portal-app store keeps
its snapshot and rollup, every request-path lookup
(`IsAccountRateLimited`, `GetPortalApp`, `GetAccountRateLimit`) answers
exactly as before, the respective refresh-error counter increments by
exactly one, and the error is returned only to the background loop (the
request-path lookup APIs have no error channel at all). -/
theorem refreshFailureIsolation (e : String)
    (getAccountPortalApp : String → Option PortalApp)
    (s : RateLimitStoreState) (t : PortalAppStoreState) :
    (updateRateLimitedAccounts getAccountPortalApp (.error e) s).1.rateLimitedAccounts
        = s.rateLimitedAccounts ∧
    (updateRateLimitedAccounts getAccountPortalApp (.error e) s).1.refreshErrorCount
        = s.refreshErrorCount + 1 ∧
    (∀ acct,
      storeIsAccountRateLimited (updateRateLimitedAccounts getAccountPortalApp (.error e) s).1 acct
        = storeIsAccountRateLimited s acct) ∧
    (updateRateLimitedAccounts getAccountPortalApp (.error e) s).2
        = .error ("failed to get monthly usage data: " ++ e) ∧
    (refreshStore (.error e) t).1.portalApps = t.portalApps ∧
    (refreshStore (.error e) t).1.accountRateLimits = t.accountRateLimits ∧
    (refreshStore (.error e) t).1.refreshErrorCount = t.refreshErrorCount + 1 ∧
    (∀ pid, storeGetPortalApp (refreshStore (.error e) t).1 pid = storeGetPortalApp t pid) ∧
    (∀ acct,
      storeGetAccountRateLimit (refreshStore (.error e) t).1 acct
        = storeGetAccountRateLimit t acct) ∧
    (refreshStore (.error e) t).2
        = .error ("failed to refresh store data: failed to get portal apps from data source: " ++ e) :=
  ⟨rfl, rfl, fun _ => rfl, rfl, rfl, rfl, rfl, fun _ => rfl, fun _ => rfl, rfl⟩

/-- C9 (code bug evidence): the `account_usage_total` gauge accumulates.
A refresh that emitted a series for `acct_old` followed by a refresh
whose warehouse output is empty leaves the stale `acct_old` series in
place: `UpdateAccountUsage` only ever `Set`s, and no code path resets or
deletes series, contradicting the spec's requirement that stale series be
cleared on each refresh. -/
theorem accountUsageGaugeRetainsStaleSeries :
    refreshAccountUsageGauge getAccountAppC9 []
        (refreshAccountUsageGauge getAccountAppC9 [("acct_old", 2000000)] [])
      = [(("acct_old", "PLAN_FREE", "1000000"), 2000000)] := by
  rfl

/-- C1 counterexample: a successful refresh whose snapshot `S` is empty
keeps the rollup entry for `acct1`, although `acct1` has no portal app in
`S`; the claim "no account absent from S remains in the mapping" is false,
because `setAccountRateLimits` extends the existing map and never clears
it. -/
theorem accountRateLimitRollupKeepsAbsentAccount :
    (setStoreData (.ok []) storeStateAcct1).2 = .ok () ∧
    storeGetAccountRateLimit (setStoreData (.ok []) storeStateAcct1).1 "acct1"
      = some { monthlyUserLimit := 5 } :=
  ⟨rfl, rfl⟩

/-- C1 amended: after a successful refresh with snapshot iterated in the
order given by `apps`, the rollup maps an account to its PREVIOUS value
when one exists, and otherwise to the rate limit of the first portal app
in iteration order with that account and a non-nil rate limit; entries
for accounts absent from the snapshot are retained. The mapping is thus a
function of the previous mapping, the snapshot and its iteration order —
not of the snapshot alone. -/
theorem accountRateLimitRollupAmended (s : PortalAppStoreState)
    (apps : List (String × PortalApp)) (acct : String) :
    storeGetAccountRateLimit (setStoreData (.ok apps) s).1 acct
      = optOr (storeGetAccountRateLimit s acct)
          (firstAppRateLimit (apps.map (fun p => p.2)) acct) := by
  simpa [storeGetAccountRateLimit, setStoreData] using
    setAccountRateLimits_lookup (apps.map (fun p => p.2)) s.accountRateLimits acct

/-- C2: `Check` implements exactly the claimed decision order with the
first failure winning; every denial carries gRPC `PERMISSION_DENIED`
(code 7), the claimed HTTP status and message, and a body of exactly the
form from the spec; the OK path produces exactly the two upstream
headers; and the Go error returned alongside the response is nil on every
path (and no nil-pointer panic is possible). The rate-limit stage, per
spec §4.5 step 6, fires only when the portal app has a rate limit
configured AND the account is in the rate-limited set. -/
theorem checkMatchesSpecOrder (getPortalApp : String → Option PortalApp)
    (isLimited : String → Bool) (req : Option HTTPRequest) :
    check getPortalApp isLimited req = some (checkSpec getPortalApp isLimited req, none) := by
  cases req with
  | none => rfl
  | some r =>
    simp only [check, checkSpec]
    by_cases hp : r.path = ""
    · simp only [hp]
      rfl
    · rw [if_neg hp, if_neg hp]
      cases hex : extractPortalAppID r.headers r.path with
      | error msg => rfl
      | ok pid =>
        dsimp only
        cases hget : getPortalApp pid with
        | none => rfl
        | some app =>
          dsimp only
          cases hauth : checkPortalAppAuthorized r.headers app with
          | none => exact absurd hauth (checkPortalAppAuthorized_ne_none r.headers app)
          | some o =>
            cases o with
            | some m =>
              have hm := checkPortalAppAuthorized_error_msg r.headers app m hauth
              have hfail : apiKeyCheckFails r.headers app = true := by
                simp [apiKeyCheckFails, hauth]
              dsimp only
              rw [hfail, hm]
              rfl
            | none =>
              have hfail : apiKeyCheckFails r.headers app = false := by
                simp [apiKeyCheckFails, hauth]
              dsimp only
              rw [hfail]
              cases hrl : app.rateLimit with
              | none =>
                have hclr : checkAccountRateLimited isLimited app = none := by
                  simp [checkAccountRateLimited, hrl]
                rw [hclr]
                rfl
              | some rlv =>
                cases hlim : isLimited app.accountID with
                | true =>
                  have hclr : checkAccountRateLimited isLimited app
                      = some "account is rate limited" := by
                    simp [checkAccountRateLimited, hrl, hlim]
                  rw [hclr]
                  rfl
                | false =>
                  have hclr : checkAccountRateLimited isLimited app = none := by
                    simp [checkAccountRateLimited, hrl, hlim]
                  rw [hclr]
                  rfl

/-- C5: every OK response out of `Check` has gRPC status `OK` (code 0),
message `"ok"`, and exactly the two upstream headers
`Portal-Application-ID` and `Portal-Account-ID`, valued with the resolved
portal app's `ID` and `AccountID`; no other header is ever emitted on
success. -/
theorem okResponseHeaders (getPortalApp : String → Option PortalApp)
    (isLimited : String → Bool) (req : Option HTTPRequest) (resp : CheckResponse)
    (goErr : Option String) (hs : List (String × String)) :
    check getPortalApp isLimited req = some (resp, goErr) →
    resp.httpResponse = HttpResponseKind.okResp hs →
    resp.statusCode = 0 ∧ resp.statusMessage = "ok" ∧ goErr = none ∧
    ∃ r pid app, req = some r ∧
      extractPortalAppID r.headers r.path = .ok pid ∧
      getPortalApp pid = some app ∧
      hs = [("Portal-Application-ID", app.id), ("Portal-Account-ID", app.accountID)] := by
  intro hcheck hok
  cases req with
  | none =>
    simp only [check, Option.some.injEq, Prod.mk.injEq] at hcheck
    rw [← hcheck.1] at hok
    simp [getDeniedCheckResponse] at hok
  | some r =>
    simp only [check] at hcheck
    by_cases hp : r.path = ""
    · rw [if_pos hp] at hcheck
      simp only [Option.some.injEq, Prod.mk.injEq] at hcheck
      rw [← hcheck.1] at hok
      simp [getDeniedCheckResponse] at hok
    · rw [if_neg hp] at hcheck
      cases hex : extractPortalAppID r.headers r.path with
      | error msg =>
        rw [hex] at hcheck
        dsimp only at hcheck
        simp only [Option.some.injEq, Prod.mk.injEq] at hcheck
        rw [← hcheck.1] at hok
        simp [getDeniedCheckResponse] at hok
      | ok pid =>
        rw [hex] at hcheck
        dsimp only at hcheck
        cases hget : getPortalApp pid with
        | none =>
          rw [hget] at hcheck
          dsimp only at hcheck
          simp only [Option.some.injEq, Prod.mk.injEq] at hcheck
          rw [← hcheck.1] at hok
          simp [getDeniedCheckResponse] at hok
        | some app =>
          rw [hget] at hcheck
          dsimp only at hcheck
          cases hauth : checkPortalAppAuthorized r.headers app with
          | none => exact absurd hauth (checkPortalAppAuthorized_ne_none r.headers app)
          | some o =>
            rw [hauth] at hcheck
            cases o with
            | some m =>
              dsimp only at hcheck
              simp only [Option.some.injEq, Prod.mk.injEq] at hcheck
              rw [← hcheck.1] at hok
              simp [getDeniedCheckResponse] at hok
            | none =>
              dsimp only at hcheck
              cases hrlc : checkAccountRateLimited isLimited app with
              | some m =>
                rw [hrlc] at hcheck
                dsimp only at hcheck
                simp only [Option.some.injEq, Prod.mk.injEq] at hcheck
                rw [← hcheck.1] at hok
                simp [getDeniedCheckResponse] at hok
              | none =>
                rw [hrlc] at hcheck
                dsimp only at hcheck
                simp only [Option.some.injEq, Prod.mk.injEq] at hcheck
                rw [← hcheck.1] at hok
                simp only [getOKCheckResponse, HttpResponseKind.okResp.injEq] at hok
                refine ⟨by rw [← hcheck.1]; rfl, by rw [← hcheck.1]; rfl, hcheck.2.symm,
                  r, pid, app, rfl, hex, hget, ?_⟩
                rw [← hok]
                rfl

/-- C5 witness: the public app probed at `/v1/app_p` yields an OK
response; applying the theorem to it confirms status 0, message `"ok"`
and exactly the two upstream headers. -/
theorem okResponseHeaders_witness :
    (getOKCheckResponse (getHTTPHeaders appPublic)).statusCode = 0 ∧
    (getOKCheckResponse (getHTTPHeaders appPublic)).statusMessage = "ok" ∧
    (none : Option String) = none ∧
    ∃ r pid app, (some ⟨"/v1/app_p", []⟩ : Option HTTPRequest) = some r ∧
      extractPortalAppID r.headers r.path = .ok pid ∧
      getAppPublic pid = some app ∧
      [("Portal-Application-ID", "app_p"), ("Portal-Account-ID", "acct_p")]
        = [("Portal-Application-ID", app.id), ("Portal-Account-ID", app.accountID)] :=
  okResponseHeaders getAppPublic (fun _ => false) (some ⟨"/v1/app_p", []⟩)
    (getOKCheckResponse (getHTTPHeaders appPublic)) none
    [("Portal-Application-ID", "app_p"), ("Portal-Account-ID", "acct_p")] (by rfl) (by rfl)

/-- C8: for a portal app gated by a non-empty API key, `Check` produces
the one fixed denial — HTTP 401, message `"unauthorized"`, body
`\x7b"code": 401, "message": "unauthorized"\x7d` — identically for the
three failing inputs: `Authorization` lookup empty because the header is
absent (`headerGet` of a map with no such key is `""`), lookup empty
because the header is present with an empty value, and a present but
wrong key. -/
theorem apiKeyDenialOpacity (getPortalApp : String → Option PortalApp)
    (isLimited : String → Bool) (p : String) (h1 h2 h3 : Headers) (pid : String)
    (app : PortalApp) (a : Auth) (w : String) :
    app.auth = some a → a.apiKey ≠ "" → p ≠ "" →
    extractPortalAppID h1 p = .ok pid →
    extractPortalAppID h2 p = .ok pid →
    extractPortalAppID h3 p = .ok pid →
    getPortalApp pid = some app →
    headerGet h1 "Authorization" = "" →
    headerGet h2 "Authorization" = "" →
    headerGet h3 "Authorization" = w → w ≠ "" → stripAPIKeyBearer w ≠ a.apiKey →
    check getPortalApp isLimited (some ⟨p, h1⟩)
        = some (getDeniedCheckResponse errUnauthorized 401, none) ∧
    check getPortalApp isLimited (some ⟨p, h2⟩)
        = some (getDeniedCheckResponse errUnauthorized 401, none) ∧
    check getPortalApp isLimited (some ⟨p, h3⟩)
        = some (getDeniedCheckResponse errUnauthorized 401, none) := by
  intro ha hk hp hex1 hex2 hex3 hget hg1 hg2 hg3 hw hstrip
  have main : ∀ hh : Headers, extractPortalAppID hh p = .ok pid →
      checkPortalAppAuthorized hh app = some (some errUnauthorized) →
      check getPortalApp isLimited (some ⟨p, hh⟩)
        = some (getDeniedCheckResponse errUnauthorized 401, none) := by
    intro hh hex hauth
    simp [check, hp, hex, hget, hauth]
  refine ⟨main h1 hex1 ?_, main h2 hex2 ?_, main h3 hex3 ?_⟩
  · simp [checkPortalAppAuthorized, authorizeRequest, ha, hk, hg1]
  · simp [checkPortalAppAuthorized, authorizeRequest, ha, hk, hg2]
  · simp [checkPortalAppAuthorized, authorizeRequest, ha, hk, hg3, hw, hstrip]

/-- C8 witness: the three concrete failing probes for the app with secret
`"topsecret"` — no headers at all, an empty `Authorization` value, and a
wrong key — all yield the same 401 `"unauthorized"` denial. -/
theorem apiKeyDenialOpacity_witness :
    check getAppTopSecret (fun _ => false) (some ⟨"/v1/app_t", []⟩)
        = some (getDeniedCheckResponse errUnauthorized 401, none) ∧
    check getAppTopSecret (fun _ => false) (some ⟨"/v1/app_t", [("Authorization", "")]⟩)
        = some (getDeniedCheckResponse errUnauthorized 401, none) ∧
    check getAppTopSecret (fun _ => false) (some ⟨"/v1/app_t", [("Authorization", "Bearer wrong")]⟩)
        = some (getDeniedCheckResponse errUnauthorized 401, none) :=
  apiKeyDenialOpacity getAppTopSecret (fun _ => false) "/v1/app_t"
    [] [("Authorization", "")] [("Authorization", "Bearer wrong")] "app_t"
    appTopSecret { apiKey := "topsecret" } "Bearer wrong"
    rfl (by decide) (by decide) rfl rfl rfl rfl
    rfl rfl rfl (by decide) (by decide)

/-- C3 counterexample: with the stored secret `"Bearer "` and the header
value `"Bearer "`, the code authorizes the request (no stripping happens,
because stripping requires the value to be STRICTLY longer than seven
characters), while the claim — strip whenever the value starts with
`"Bearer "` — predicts a failed comparison of `""` against `"Bearer "`.
So the claimed if-and-only-if is false at this input. -/
theorem bearerExactPrefixCounterexample :
    authorizeRequest [("Authorization", "Bearer ")] appBearerSecret = some none ∧
    authorizeRequestClaimSpec [("Authorization", "Bearer ")] "Bearer " = false := by
  exact ⟨by decide, by decide⟩

/-- C3 amended: the authorizer succeeds iff the case-insensitive
`Authorization` lookup is non-empty and, after stripping `"Bearer "` only
when the value is strictly longer than seven characters and starts with
that prefix, equals the stored secret; otherwise it fails with the opaque
`"unauthorized"` error. -/
theorem bearerStripAmended (headers : Headers) (app : PortalApp) (a : Auth) :
    app.auth = some a → a.apiKey ≠ "" →
    ((authorizeRequest headers app = some none)
        ↔ authorizeRequestAmendedSpec headers a.apiKey = true) ∧
    (authorizeRequestAmendedSpec headers a.apiKey = false →
      authorizeRequest headers app = some (some errUnauthorized)) := by
  intro ha hk
  simp only [authorizeRequest, authorizeRequestAmendedSpec, stripAPIKeyBearer, ha]
  by_cases hv : headerGet headers "Authorization" = ""
  · simp [hv]
  · simp only [hv, if_neg, not_false_iff, if_false]
    by_cases he : (if 7 < strLen (headerGet headers "Authorization")
          && strTake (headerGet headers "Authorization") 7 == "Bearer "
        then strDrop (headerGet headers "Authorization") 7
        else headerGet headers "Authorization") = a.apiKey
    · simp [he]
    · simp [he]

/-- C3 amended witness: a lowercase `authorization` header carrying
`"Bearer topsecret"` authorizes the app whose stored secret is
`"topsecret"`. -/
theorem bearerStripAmended_witness :
    authorizeRequest [("authorization", "Bearer topsecret")] appTopSecret = some none :=
  ((bearerStripAmended [("authorization", "Bearer topsecret")] appTopSecret
    { apiKey := "topsecret" } rfl (by decide)).1).mpr (by decide)

/-- C4 counterexample: for the path `/v1//abc` (empty first segment) the
code fails with the extraction error, while the claim — return the first
NON-EMPTY segment — predicts success with `"abc"`. -/
theorem firstSegmentCounterexample :
    extractPortalAppID [] "/v1//abc" = .error "portal app ID not provided in header or path" ∧
    extractPortalAppIDClaimSpec [] "/v1//abc" = .ok "abc" := by
  exact ⟨rfl, rfl⟩

/-- C4 amended: extraction is the pure three-step function that returns
the `Portal-Application-ID` header value when non-empty, else — when the
path starts with `/v1/` — the FIRST segment of the remainder split on `/`
provided that first segment is non-empty, and otherwise fails with
`"portal app ID not provided in header or path"`. -/
theorem extractorAmended (headers : Headers) (path : String) :
    extractPortalAppID headers path = extractPortalAppIDAmendedSpec headers path := by
  simp only [extractPortalAppID, extractPortalAppIDAmendedSpec, extractPortalAppIDFromHeader,
    reqHeaderPortalAppID]
  by_cases hh : headerGet headers "Portal-Application-ID" = ""
  · simp only [hh, ne_eq, not_true_eq_false, if_false]
    cases hsw : strStartsWith path "/v1/" with
    | false => simp [extractPortalAppIDFromPath, hsw]
    | true =>
      simp only [extractPortalAppIDFromPath, hsw, if_true]
      cases hsp : splitOnSlash (strDrop path 4) with
      | nil => simp
      | cons seg rest =>
        by_cases hseg : seg = ""
        · simp [hseg]
        · simp [hseg]
  · simp [hh]

end Peas
